import Mathlib

/-!
Verification of the x402-server access-grant store (Go source, two variants).

The Go program keeps grants in in-memory maps keyed by strings:
* the session-token variant (`SessionStore` with `Session` records, handlers
  `POST /api/pay/session`, `POST /api/pay/onetime`, `GET /api/session/:sessionId`,
  `GET /api/sessions`);
* the wallet-identity variant (`paidUsers : map[string]UserAccess`, handlers
  `POST /api/pay/image` and `GET /api/image`).

Go maps are embedded as association lists over `String`; `time.Time` values
are embedded as `Int` timestamps in seconds, so `time.Duration` constants
become second counts (24h = 86400, 5min = 300, 30s = 30) and `a.After(b)`
becomes `a > b`, `a.Sub(b)` becomes `a - b`.
-/

/-- Go map read `m[k]`: first binding of `k` in the association list. -/
def findKey {β : Type} (k : String) : List (String × β) → Option β
  | [] => none
  | (k', v) :: rest => if k' = k then some v else findKey k rest

/-- Go map write `m[k] = v`: bind `k` to `v`, dropping any older binding. -/
def setKey {β : Type} (k : String) (v : β) (l : List (String × β)) : List (String × β) :=
  (k, v) :: l.filter (fun p => p.1 ≠ k)

/-- Go `delete(m, k)`: drop every binding of `k`. -/
def eraseKey {β : Type} (k : String) (l : List (String × β)) : List (String × β) :=
  l.filter (fun p => p.1 ≠ k)

/-- `Session` from main.go (session-token variant): `Used` is a nullable
boolean pointer in Go, hence `Option Bool` here. -/
structure Session where
  id : String
  createdAt : Int
  expiresAt : Int
  type : String
  used : Option Bool
deriving DecidableEq, Repr

/-- The `SessionStore.sessions` map. -/
abbrev Store := List (String × Session)

/-- Outcome of the `GET /api/session/:sessionId` handler, read off the JSON
it writes: 404 "Session not found"; `valid:false` with error "Session
expired"; `valid:false` with error "One-time access already used";
`valid:true`. -/
inductive Verdict
  | notFound
  | expired
  | alreadyUsed
  | valid
deriving DecidableEq, Repr

/-- The `GET /api/session/:sessionId` handler (main.go lines 275-334):
look the session up, compute `isExpired := now.After(session.ExpiresAt)` and
`isUsed := session.Type == "onetime" && session.Used != nil && *session.Used`,
answer invalid when either holds (the error message prefers "already used"),
otherwise mark one-time sessions used and answer valid. Returns the verdict
together with the store left behind. -/
def redeemSession (store : Store) (sid : String) (now : Int) : Verdict × Store :=
  match findKey sid store with
  | none => (Verdict.notFound, store)
  | some s =>
    let isExpired := now > s.expiresAt
    let  isUsed := s.type = "onetime" ∧ s.used = some true
    if isExpired ∨ isUsed then
      (if isUsed then Verdict.alreadyUsed else Verdict.expired, store)
    else if s.type = "onetime" ∧ s.used.isSome then
      (Verdict.valid, setKey sid { s with used := some true } store)
    else
      (Verdict.valid, store)

/-- The `POST /api/pay/session` handler's store effect (main.go lines
206-232): insert a "24hour" session expiring 24 hours (86400 s) after `now`,
with no `Used` flag. -/
def paySessionHandler (store : Store) (sid : String) (now : Int) : Store :=
  setKey sid
    { id := sid, createdAt := now, expiresAt := now + 86400, type := "24hour", used := none }
    store

/-- The `POST /api/pay/onetime` handler's store effect (main.go lines
244-258): insert a "onetime" session expiring 5 minutes (300 s) after `now`,
with `used = false`. -/
def payOnetimeHandler (store : Store) (sid : String) (now : Int) : Store :=
  setKey sid
    { id := sid, createdAt := now, expiresAt := now + 300, type := "onetime", used := some false }
    store

/-- The per-session filter of `SessionStore.GetAllActive` (main.go lines
60-66): keep a session iff it is neither expired (`now.After(ExpiresAt)`) nor
a used one-time session. -/
def sessionActive (now : Int) (s : Session) : Bool :=
  let isExpired := decide (now > s.expiresAt)
  let  isUsed := decide (s.type = "onetime" ∧ s.used = some true)
  !isExpired && ! isUsed

/-- `SessionStore.GetAllActive` (main.go lines 53-69), with the ambient
`time.Now()` made an explicit parameter: every stored session passing
`sessionActive`. -/
def getAllActive (store : Store) (now : Int) : List Session :=
  (store.map (fun p => p.2)).filter (sessionActive now)

/-! ### Fine-grained steps of the redeem handler (for the concurrency claim)

In the Go handler the lookup-and-check and the mark-used write are two
separately locked steps: `sessionStore.Get` takes only a read lock, the
field checks run with no lock held, and only afterwards does
`*session.Used = true; sessionStore.Set(...)` write (lines 316-320). A
concurrent handler may run between the two. We model one in-flight call by a
`CallState` and let a schedule choose which call performs its next atomic
step. -/

/-- Progress of one in-flight `GET /api/session/:sessionId` request. -/
inductive CallState
  | ready
  | needMark
  | finished (v : Verdict)
deriving DecidableEq, Repr

/-- The check phase (main.go lines 277-314): everything the handler does up
to, but not including, the mark-used write. A call that decided `valid` on a
one-time session with a non-nil `Used` still has its write pending
(`needMark`); every other outcome is final. -/
def redeemCheck (store : Store) (sid : String) (now : Int) : CallState :=
  match findKey sid store with
  | none => CallState.finished Verdict.notFound
  | some s =>
    let isExpired := now > s.expiresAt
    let  isUsed := s.type = "onetime" ∧ s.used = some true
    if isExpired ∨ isUsed then
      CallState.finished (if isUsed then Verdict.alreadyUsed else Verdict.expired)
    else if s.type = "onetime" ∧ s.used.isSome then
      CallState.needMark
    else
      CallState.finished Verdict.valid

/-- The mark phase (main.go lines 317-320): `*session.Used = true` followed
by `sessionStore.Set(sessionID, session)`. -/
def markUsed (store : Store) (sid : String) : Store :=
  match findKey sid store with
  | none => store
  | some s => setKey sid { s with used := some true } store

/-- One atomic step of one in-flight call. -/
def stepCall (store : Store) (cs : CallState) (sid : String) (now : Int) : CallState × Store :=
  match cs with
  | CallState.ready => (redeemCheck store sid now, store)
  | CallState.needMark => (CallState.finished Verdict.valid, markUsed store sid)
  | CallState.finished v => (CallState.finished v, store)

/-- Run a schedule: each entry names the call that performs its next step.
All calls redeem the same `sid` at the same `now`. -/
def runSched (sid : String) (now : Int) : List Nat → Store → List CallState → Store × List CallState
  | [], store, calls => (store, calls)
  | i :: rest, store, calls =>
    match calls[i]? with
    | none => runSched sid now rest store calls
    | some cs =>
      let (cs', store') := stepCall store cs sid now
      runSched sid now rest store' (calls.set i cs')

/-! ### Wallet-identity variant -/

/-- `UserAccess` from the wallet-identity main.go. -/
structure UserAccess where
  startTime : Int
deriving DecidableEq, Repr

/-- The `paidUsers` map. -/
abbrev PaidUsers := List (String × UserAccess)

/-- `const ViewDuration = 30 * time.Second`, in seconds. -/
def viewDuration : Int := 30

/-- ASCII case folding of one character, as Go's `strings.ToLower` acts on
the ASCII range (wallet addresses are ASCII hex strings). -/
def lowerChar (c : Char) : Char :=
  if 'A' ≤ c ∧ c ≤ 'Z' then Char.ofNat (c.toNat + 32) else c

/-- Go `strings.ToLower` on ASCII strings: fold every character. -/
def goToLower (s : String) : String :=
  String.mk (s.data.map lowerChar)

/-- Outcome of `GET /api/image` behind `paymentMiddleware`: 402 from the
middleware when no `X-Wallet-Address` header is present; 403 "需要支付才能访问"
when the wallet is not in `paidUsers`; 403 expired; 200 with the remaining
seconds. -/
inductive ImageVerdict
  | paymentRequired
  | forbiddenNotPaid
  | forbiddenExpired
  | ok (remaining : Int)
deriving DecidableEq, Repr

/-- Whether an `ImageVerdict` is the 200 success response. -/
def ImageVerdict.isOk : ImageVerdict → Bool
  | ImageVerdict.ok _ => true
  | _ => false

/-- `GET /api/image` (wallet main.go lines 560-617) composed with its
`paymentMiddleware` (lines 400-418): the middleware aborts with 402 when the
header is empty; the handler looks the RAW header value up in `paidUsers`
(the middleware's lowercased context value is never read), answers 403 when
absent, evicts the record and answers 403-expired when
`elapsed := now.Sub(StartTime)` has reached `ViewDuration`, else answers 200
with the remaining time. -/
def getImage (paidUsers : PaidUsers) (walletAddress : String) (now : Int) :
    ImageVerdict × PaidUsers :=
  if walletAddress = "" then (ImageVerdict.paymentRequired, paidUsers)
  else
    match findKey walletAddress paidUsers with
    | none => (ImageVerdict.forbiddenNotPaid, paidUsers)
    | some ua =>
      let elapsed := now - ua.startTime
      if elapsed ≥ viewDuration then
        (ImageVerdict.forbiddenExpired, eraseKey walletAddress paidUsers)
      else
        (ImageVerdict.ok (viewDuration - elapsed), paidUsers)

/-- Outcome of the `POST /api/pay/image` handler body. -/
inductive PayImageResult
  | badRequest
  | ok
deriving DecidableEq, Repr

/-- The `POST /api/pay/image` handler body (wallet main.go lines 537-557):
reject an empty header with 400, else store
`paidUsers[strings.ToLower(walletAddress)] = UserAccess{StartTime: now}`. -/
def payImage (paidUsers : PaidUsers) (walletAddress : String) (now : Int) :
    PayImageResult × PaidUsers :=
  if walletAddress = "" then (PayImageResult.badRequest, paidUsers)
  else (PayImageResult.ok, setKey (goToLower walletAddress) { startTime := now } paidUsers)

/-! ### Concrete stores used as test inputs -/

/-- A "24hour" session whose expiry is the concrete instant 5. -/
def boundarySession : Session :=
  { id := "A", createdAt := 0, expiresAt := 5, type := "24hour", used := none }

/-- A store holding only `boundarySession` under key "A". -/
def boundaryStore : Store := [("A", boundarySession)]

/-- A "onetime" session that is both already used and past expiry at time 10. -/
def usedExpiredSession : Session :=
  { id := "C", createdAt := 0, expiresAt := 5, type := "onetime", used := some true }

/-- A store holding only `usedExpiredSession` under key "C". -/
def usedExpiredStore : Store := [("C", usedExpiredSession)]

/-- A fresh unexpired "onetime" session, the target of the redemption race. -/
def raceSession : Session :=
  { id := "D", createdAt := 0, expiresAt := 10, type := "onetime", used := some false }

/-- A store holding only `raceSession` under key "D". -/
def raceStore : Store := [("D", raceSession)]

/-- The "24hour" session minted by `paySessionHandler [] "B" 0`. -/
def recurringSessionB : Session :=
  { id := "B", createdAt := 0, expiresAt := 86400, type := "24hour", used := none }

/-- A wallet-variant access record starting at time 0. -/
def walletAccess0 : UserAccess := { startTime := 0 }

/-- A wallet-variant store holding `walletAccess0` under the lowercase key "0xab". -/
def paidStore0 : PaidUsers := [("0xab", walletAccess0)]

/-! ### Association-list lemmas -/

theorem findKey_filter_ne {β : Type} (j k : String) (l : List (String × β)) (h : j ≠ k) :
    findKey j (l.filter (fun p => p.1 ≠ k)) = findKey j l := by
  induction l with
  | nil => rfl
  | cons p rest ih =>
    by_cases hk : p.1 = k
    · have hj : p.1 ≠ j := by rw [hk]; exact fun hh => h hh.symm
      cases p with
      | mk k' v => simp_all [List.filter, findKey]
    · cases p with
      | mk k' v =>
        by_cases hj : k' = j <;> simp_all [List.filter, findKey]

theorem findKey_setKey_self {β : Type} (k : String) (v : β) (l : List (String × β)) :
    findKey k (setKey k v l) = some v := by
  simp [setKey, findKey]

theorem findKey_setKey_ne {β : Type} (j k : String) (v : β) (l : List (String × β))
    (h : j ≠ k) : findKey j (setKey k v l) = findKey j l := by
  have hk : k ≠ j := fun hh => h hh.symm
  simp only [setKey, findKey, if_neg hk]
  exact findKey_filter_ne j k l h

theorem findKey_eraseKey_self {β : Type} (k : String) (l : List (String × β)) :
    findKey k (eraseKey k l) = none := by
  induction l with
  | nil => rfl
  | cons p rest ih =>
    by_cases hk : p.1 = k
    · cases p with
      | mk k' v => simp_all [eraseKey, List.filter, findKey]
    · cases p with
      | mk k' v =>
        simp_all [eraseKey, List.filter, findKey]

theorem findKey_eraseKey_ne {β : Type} (j k : String) (l : List (String × β)) (h : j ≠ k) :
    findKey j (eraseKey k l) = findKey j l :=
  findKey_filter_ne j k l h

/-- Folding an ASCII string to lower case never turns a non-empty string
into the empty string (the map keeps the character count). -/
theorem goToLower_ne_empty (w : String) (h : w ≠ "") : goToLower w ≠ "" := by
  intro hc
  apply h
  cases w with
  | mk data =>
    cases data with
    | nil => rfl
    | cons c cs =>
      have hd := congrArg String.data hc
      simp [goToLower] at hd

/-- On any schedule that lets one handler finish its check and its mark
before the other starts — here check₀, mark₀, check₁ — the second call
observes the used flag and answers ALREADY_USED. -/
theorem runSched_sequential_contrast :
    (runSched "D" 0 [0, 0, 1, 1] raceStore [CallState.ready, CallState.ready]).2 =
      [CallState.finished Verdict.valid, CallState.finished Verdict.alreadyUsed] := by
  decide

/-- Claim C1. The claim asserts that among concurrent `Redeem` calls on an
unexpired SINGLE_USE grant exactly one observes VALID. The handler, however,
performs its lookup-and-check and its mark-used write as two separately
locked steps, so the interleaving check₀, check₁, mark₀, mark₁ of two
redemptions of the fresh one-time grant "D" at time 0 lets both calls
finish VALID: the claimed exclusivity fails on the code. -/
theorem c1_concurrent_double_valid :
    (runSched "D" 0 [0, 1, 0, 1] raceStore [CallState.ready, CallState.ready]).2 =
      [CallState.finished Verdict.valid, CallState.finished Verdict.valid] := by
  decide

/-- Claim C2, counterexample. The grant under "A" has expiresAt = 5, yet
redeeming at exactly now = 5 yields VALID, because the code's expiry test is
the strict `now.After(expiresAt)`; the claim says now >= E is never VALID. -/
theorem c2_boundary_counterexample :
    findKey "A" boundaryStore = some boundarySession ∧
    boundarySession.expiresAt = 5 ∧
    (redeemSession boundaryStore "A" 5).1 = Verdict.valid := by
  decide

/-- Claim C2, amended. For a stored grant: at any now < expiresAt the
verdict is never EXPIRED, and at any now strictly after expiresAt the
verdict is never VALID (at now = expiresAt the session variant answers
VALID). In the wallet variant, before startTime + ViewDuration the verdict
is never the expired one, and from startTime + ViewDuration on it is never
the success verdict. -/
theorem c2_strict_expiry_amended (store : Store) (sid : String) (now : Int) (s : Session)
    (h : findKey sid store = some s)
    (pu : PaidUsers) (w : String) (ua : UserAccess)
    (hw : w ≠ "") (hpu : findKey w pu = some ua) :
    (now < s.expiresAt → (redeemSession store sid now).1 ≠ Verdict.expired) ∧
    (now > s.expiresAt → (redeemSession store sid now).1 ≠ Verdict.valid) ∧
    (now < ua.startTime + viewDuration →
      (getImage pu w now).1 ≠ ImageVerdict.forbiddenExpired) ∧
    (now ≥ ua.startTime + viewDuration → (getImage pu w now).1.isOk = false) := by
  refine ⟨?_, ?_, ?_, ?_⟩
  · intro hlt
    have hne : ¬ (now > s.expiresAt) := by omega
    by_cases hty : s.type = "onetime"
    · rcases hs : s.used with _ | b
      · simp [redeemSession, h, hne, hs, hty]
      · cases b
        · simp [redeemSession, h, hne, hs, hty]
        · simp [redeemSession, h, hne, hs, hty]
    · simp [redeemSession, h, hne, hty]
  · intro hgt
    by_cases hu : s.type = "onetime" ∧ s.used = some true
    · simp [redeemSession, h, hgt, hu]
    · simp [redeemSession, h, hgt, hu]
  · intro hlt
    have hne : ¬ (now - ua.startTime ≥ viewDuration) := by
      simp only [viewDuration] at *; omega
    simp [getImage, hw, hpu, hne]
  · intro hge
    have hyes : now - ua.startTime ≥ viewDuration := by
      simp only [viewDuration] at *; omega
    simp [getImage, hw, hpu, hyes, ImageVerdict.isOk]

/-- Claim C2 amended, witness: at the concrete boundary store (expiry 5,
now = 0) and the concrete paid-wallet store (start 0, now = 0), the
applicable parts of the amended statement hold. -/
theorem c2_strict_expiry_amended_witness :
    (redeemSession boundaryStore "A" 0).1 ≠ Verdict.expired ∧
    (getImage paidStore0 "0xab" 0).1 ≠ ImageVerdict.forbiddenExpired := by
  have T := c2_strict_expiry_amended boundaryStore "A" 0 boundarySession (by decide)
    paidStore0 "0xab" walletAccess0 (by decide) (by decide)
  exact ⟨T.1 (by decide), T.2.2.1 (by decide)⟩

/-- Claim C3, counterexample. The grant under "C" is a SINGLE_USE grant
that is past expiry (now = 10 ≥ 5 = expiresAt) with used = true; the claim
says such a redemption returns EXPIRED, but the handler answers
ALREADY_USED: the used flag, not expiry, decides the error message. -/
theorem c3_used_precedence_counterexample :
    findKey "C" usedExpiredStore = some usedExpiredSession ∧
    (10 : Int) ≥ usedExpiredSession.expiresAt ∧
    usedExpiredSession.used = some true ∧
    (redeemSession usedExpiredStore "C" 10).1 = Verdict.alreadyUsed ∧
    (redeemSession usedExpiredStore "C" 10).1 ≠ Verdict.expired := by
  decide

/-- Claim C3, amended. For a stored grant with now strictly after
expiresAt, Redeem returns EXPIRED unless the grant is a used SINGLE_USE
grant, in which case the verdict is ALREADY_USED (the used check takes
precedence in the verdict); in either case the record stays in the store. -/
theorem c3_used_precedence_amended (store : Store) (sid : String) (now : Int) (s : Session)
    (h : findKey sid store = some s) (hgt : now > s.expiresAt) :
    redeemSession store sid now =
      (if s.type = "onetime" ∧ s.used = some true then Verdict.alreadyUsed else Verdict.expired,
       store) := by
  by_cases hu : s.type = "onetime" ∧ s.used = some true <;> simp [redeemSession, h, hgt, hu]

/-- Claim C3 amended, witness: the used-and-expired grant "C" redeemed at
now = 10 gets the ALREADY_USED arm of the amended statement. -/
theorem c3_used_precedence_amended_witness :
    redeemSession usedExpiredStore "C" 10 =
      (if usedExpiredSession.type = "onetime" ∧ usedExpiredSession.used = some true then
        Verdict.alreadyUsed else Verdict.expired,
       usedExpiredStore) :=
  c3_used_precedence_amended usedExpiredStore "C" 10 usedExpiredSession (by decide) (by decide)

/-- Claim C4: creating a one-time grant at time t and redeeming it at a
time before its expiry (t + 300 s) answers VALID, and a second sequential
redemption at the same time answers ALREADY_USED. -/
theorem c4_single_use_sequential (store : Store) (sid : String) (t now : Int)
    (h : now < t + 300) :
    (redeemSession (payOnetimeHandler store sid t) sid now).1 = Verdict.valid ∧
    (redeemSession (redeemSession (payOnetimeHandler store sid t) sid now).2 sid now).1 =
      Verdict.alreadyUsed := by
  have hne : ¬ (now > t + 300) := by omega
  constructor
  · simp [redeemSession, payOnetimeHandler, findKey_setKey_self, hne]
  · simp [redeemSession, payOnetimeHandler, findKey_setKey_self, hne, setKey, findKey]

/-- Claim C4, witness: key "A1" created at 0, both redemptions at 0. -/
theorem c4_single_use_sequential_witness :
    (0 : Int) < 0 + 300 ∧
    (redeemSession (payOnetimeHandler [] "A1" 0) "A1" 0).1 = Verdict.valid ∧
    (redeemSession (redeemSession (payOnetimeHandler [] "A1" 0) "A1" 0).2 "A1" 0).1 =
      Verdict.alreadyUsed :=
  ⟨by decide, (c4_single_use_sequential [] "A1" 0 0 (by decide)).1,
   (c4_single_use_sequential [] "A1" 0 0 (by decide)).2⟩

/-- Claim C5: a stored RECURRING ("24hour") grant redeemed at any two times
before its expiry answers VALID both times and the store — hence the
record — is left exactly as it was, so any number of redemptions behave
the same; the grant is never marked used. -/
theorem c5_recurring_reusable (store : Store) (sid : String) (now1 now2 : Int) (s : Session)
    (h : findKey sid store = some s) (ht : s.type = "24hour")
    (h1 : now1 < s.expiresAt) (h2 : now2 < s.expiresAt) :
    redeemSession store sid now1 = (Verdict.valid, store) ∧
    redeemSession store sid now2 = (Verdict.valid, store) := by
  have hu : s.type ≠ "onetime" := by rw [ht]; decide
  have hne1 : ¬ (now1 > s.expiresAt) := by omega
  have hne2 : ¬ (now2 > s.expiresAt) := by omega
  constructor
  · simp [redeemSession, h, hu, hne1]
  · simp [redeemSession, h, hu, hne2]

/-- Claim C5, witness: the 24-hour grant "B" created at 0, redeemed at 0
and at 3600. -/
theorem c5_recurring_reusable_witness :
    findKey "B" (paySessionHandler [] "B" 0) = some recurringSessionB ∧
    recurringSessionB.type = "24hour" ∧
    (0 : Int) < recurringSessionB.expiresAt ∧
    (3600 : Int) < recurringSessionB.expiresAt ∧
    (redeemSession (paySessionHandler [] "B" 0) "B" 0 =
        (Verdict.valid, paySessionHandler [] "B" 0) ∧
      redeemSession (paySessionHandler [] "B" 0) "B" 3600 =
        (Verdict.valid, paySessionHandler [] "B" 0)) :=
  ⟨by decide, by decide, by decide, by decide,
    c5_recurring_reusable (paySessionHandler [] "B" 0) "B" 0 3600 recurringSessionB
      (by decide) (by decide) (by decide) (by decide)⟩

/-- Claim C6: the used flag is one-way. For any stored grant whose used
flag is already true, redemption leaves its record untouched; if redemption
changes any key's record at all, that key is the redeemed one, the verdict
is VALID, and the change is exactly used: false → true on a "onetime"
grant; creating a grant under a different key changes nothing under other
keys; and a freshly created one-time grant starts with used = false.
(`Lookup` and `ActiveSnapshot` are pure reads of the store by definition.) -/
theorem c6_used_monotone (store : Store) (sid j k : String) (now t : Int) (s : Session)
    (hj : findKey j store = some s) (hk : findKey k store = none) :
    (s.used = some true → findKey j (redeemSession store sid now).2 = some s) ∧
    (findKey j (redeemSession store sid now).2 ≠ findKey j store →
        j = sid ∧ (redeemSession store sid now).1 = Verdict.valid ∧
        s.type = "onetime" ∧ s.used = some false ∧
        findKey j (redeemSession store sid now).2 = some { s with used := some true }) ∧
    (j ≠ k →
        findKey j (payOnetimeHandler store k t) = findKey j store ∧
        findKey j (paySessionHandler store k t) = findKey j store) ∧
    (∀ s0, findKey k (payOnetimeHandler store k t) = some s0 → s0.used = some false) := by
  have hchange : (redeemSession store sid now).2 = store ∨
      (∃ s1, findKey sid store = some s1 ∧ s1.type = "onetime" ∧ s1.used = some false ∧
        (redeemSession store sid now).1 = Verdict.valid ∧
        (redeemSession store sid now).2 = setKey sid { s1 with used := some true } store) := by
    rcases hfind : findKey sid store with _ | s1
    · left; simp [redeemSession, hfind]
    · by_cases hcond : now > s1.expiresAt ∨ (s1.type = "onetime" ∧ s1.used = some true)
      · left; simp [redeemSession, hfind, hcond]
      · by_cases hm : s1.type = "onetime" ∧ s1.used.isSome
        · right
          push_neg at hcond
          have hnlt : ¬ (s1.expiresAt < now) := by omega
          rcases hs : s1.used with _ | b
          · rw [hs] at hm; exact absurd hm.2 (by simp)
          · cases b with
            | true => exact absurd hs (hcond.2 hm.1)
            | false =>
              refine ⟨s1, rfl, hm.1, hs, ?_, ?_⟩ <;>
                simp [redeemSession, hfind, hnlt, hm.1, hs]
        · left
          simp [redeemSession, hfind, hcond, hm]
  refine ⟨?_, ?_, ?_, ?_⟩
  · intro hused
    rcases hchange with hsame | ⟨s1, hfind1, _, hfalse, _, hset⟩
    · rw [hsame]; exact hj
    · by_cases hjs : j = sid
      · subst hjs
        rw [hj] at hfind1
        injection hfind1 with he
        subst he
        rw [hused] at hfalse
        exact absurd hfalse (by simp)
      · rw [hset, findKey_setKey_ne j sid _ store hjs]; exact hj
  · intro hch
    rcases hchange with hsame | ⟨s1, hfind1, htype, hfalse, hvalid, hset⟩
    · exact absurd (by rw [hsame]) hch
    · by_cases hjs : j = sid
      · subst hjs
        rw [hj] at hfind1
        injection hfind1 with he
        subst he
        refine ⟨rfl, hvalid, htype, hfalse, ?_⟩
        rw [hset]
        exact findKey_setKey_self _ _ store
      · exact absurd (by rw [hset, findKey_setKey_ne j sid _ store hjs]) hch
  · intro hjk
    exact ⟨findKey_setKey_ne j k _ store hjk, findKey_setKey_ne j k _ store hjk⟩
  · intro s0 h0
    simp only [payOnetimeHandler, findKey_setKey_self] at h0
    injection h0 with he
    rw [← he]

/-- Claim C6, witness: the already-used grant "C" keeps its record across a
redemption, and creating under the fresh key "K" leaves "C" untouched. -/
theorem c6_used_monotone_witness :
    findKey "C" (redeemSession usedExpiredStore "C" 0).2 = some usedExpiredSession ∧
    (findKey "C" (payOnetimeHandler usedExpiredStore "K" 0) = findKey "C" usedExpiredStore ∧
      findKey "C" (paySessionHandler usedExpiredStore "K" 0) = findKey "C" usedExpiredStore) := by
  have T := c6_used_monotone usedExpiredStore "C" "C" "K" 0 0 usedExpiredSession
    (by decide) (by decide)
  exact ⟨T.1 (by decide), T.2.2.1 (by decide)⟩

/-- Claim C7, counterexample. The grant under "A" has expiresAt = 5 and is
listed by `GetAllActive` at now = 5, although validity per the claim
requires now < expiresAt: the enumeration keeps the boundary instant
because its test is the strict `now.After(ExpiresAt)`. -/
theorem c7_boundary_counterexample :
    boundarySession ∈ getAllActive boundaryStore 5 ∧ ¬ (5 < boundarySession.expiresAt) := by
  decide

/-- Claim C7, amended. Every session listed by `GetAllActive` at `now`
satisfies now ≤ expiresAt (so strictly expired sessions are excluded; the
boundary now = expiresAt is still listed) and is not a used one-time
session. -/
theorem c7_snapshot_amended (store : Store) (now : Int) (s : Session)
    (h : s ∈ getAllActive store now) :
    now ≤ s.expiresAt ∧ (s.type = "onetime" → s.used ≠ some true) := by
  have h' := (List.mem_filter.mp h).2
  simp [sessionActive] at h'
  exact ⟨by omega, fun ht hu => h'.2.elim (fun hh => hh ht) (fun hh => hh hu)⟩

/-- Claim C7 amended, witness: the boundary store enumerated at now = 3. -/
theorem c7_snapshot_amended_witness :
    (3 : Int) ≤ boundarySession.expiresAt ∧
    (boundarySession.type = "onetime" → boundarySession.used ≠ some true) :=
  c7_snapshot_amended boundaryStore 3 boundarySession (by decide)

/-- Claim C8: in the wallet variant, an access attempt whose elapsed time
has reached ViewDuration answers the expired verdict, removes exactly that
wallet's record (every other key reads unchanged), and a subsequent access
for the same wallet finds no record. -/
theorem c8_eager_eviction (pu : PaidUsers) (w j : String) (now now2 : Int) (ua : UserAccess)
    (hw : w ≠ "") (h : findKey w pu = some ua) (hexp : now - ua.startTime ≥ viewDuration) :
    (getImage pu w now).1 = ImageVerdict.forbiddenExpired ∧
    findKey w (getImage pu w now).2 = none ∧
    (j ≠ w → findKey j (getImage pu w now).2 = findKey j pu) ∧
    (getImage (getImage pu w now).2 w now2).1 = ImageVerdict.forbiddenNotPaid := by
  have hg : getImage pu w now = (ImageVerdict.forbiddenExpired, eraseKey w pu) := by
    simp [getImage, hw, h, hexp]
  refine ⟨by rw [hg], ?_, ?_, ?_⟩
  · rw [hg]; exact findKey_eraseKey_self w pu
  · intro hj; rw [hg]; exact findKey_eraseKey_ne j w pu hj
  · rw [hg]; simp [getImage, hw, findKey_eraseKey_self]

/-- Claim C8, witness: wallet "0xab" paid at 0 and accessed at 30 (elapsed
exactly ViewDuration), then again at 31. -/
theorem c8_eager_eviction_witness :
    (getImage paidStore0 "0xab" 30).1 = ImageVerdict.forbiddenExpired ∧
    findKey "0xab" (getImage paidStore0 "0xab" 30).2 = none ∧
    findKey "other" (getImage paidStore0 "0xab" 30).2 = findKey "other" paidStore0 ∧
    (getImage (getImage paidStore0 "0xab" 30).2 "0xab" 31).1 =
      ImageVerdict.forbiddenNotPaid := by
  have T := c8_eager_eviction paidStore0 "0xab" "other" 30 31 walletAccess0
    (by decide) (by decide) (by decide)
  exact ⟨T.1, T.2.1, T.2.2.1 (by decide), T.2.2.2⟩

/-- Claim C9: a successful wallet payment for an identity already present
overwrites that identity's record with StartTime = now, and an access at
any later instant within ViewDuration of the new payment succeeds with the
full fresh window. -/
theorem c9_overwrite_resets (pu : PaidUsers) (w : String) (now now2 : Int) (ua0 : UserAccess)
    (hw : w ≠ "") (hold : findKey (goToLower w) pu = some ua0)
    (hfresh : now2 - now < viewDuration) :
    (payImage pu w now).1 = PayImageResult.ok ∧
    findKey (goToLower w) (payImage pu w now).2 = some { startTime := now } ∧
    (getImage (payImage pu w now).2 (goToLower w) now2).1 =
      ImageVerdict.ok (viewDuration - (now2 - now)) := by
  have hlw : goToLower w ≠ "" := goToLower_ne_empty w hw
  have hp : payImage pu w now =
      (PayImageResult.ok, setKey (goToLower w) { startTime := now } pu) := by
    simp [payImage, hw]
  have hl := findKey_setKey_self (goToLower w) ({ startTime := now } : UserAccess) pu
  have hne : ¬ (now2 - now ≥ viewDuration) := by omega
  refine ⟨by rw [hp], ?_, ?_⟩
  · rw [hp]; exact hl
  · rw [hp]
    simp [getImage, hlw, hl, hne]

/-- Claim C9, witness: wallet "0xab" already holds a record started at 0;
re-paying at 100 resets the window, and access at 120 still succeeds. -/
theorem c9_overwrite_resets_witness :
    (payImage paidStore0 "0xab" 100).1 = PayImageResult.ok ∧
    findKey (goToLower "0xab") (payImage paidStore0 "0xab" 100).2 =
      some { startTime := 100 } ∧
    (getImage (payImage paidStore0 "0xab" 100).2 (goToLower "0xab") 120).1 =
      ImageVerdict.ok (viewDuration - (120 - 100)) :=
  c9_overwrite_resets paidStore0 "0xab" 100 120 walletAccess0
    (by decide) (by decide) (by decide)

/-- Claim C10: paying stores the grant under the lowercased address while
the protected endpoint looks the raw header up, so paying with header W
from an empty store and immediately accessing with the same W succeeds iff
W equals its own lowercasing; any W containing an uppercase ASCII letter is
refused right after paying. -/
theorem c10_case_mismatch (w : String) (now : Int) (hw : w ≠ "") :
    ((getImage (payImage [] w now).2 w now).1.isOk = true) ↔ w = goToLower w := by
  have hp : (payImage [] w now).2 = [(goToLower w, { startTime := now })] := by
    simp [payImage, hw, setKey]
  rw [hp]
  by_cases he : goToLower w = w
  · rw [he]
    have hfound : findKey w [(w, ({ startTime := now } : UserAccess))] =
        some { startTime := now } := by
      simp [findKey]
    have hne : ¬ (now - now ≥ viewDuration) := by
      simp only [viewDuration]; omega
    have hne0 : ¬ (viewDuration ≤ (0 : Int)) := by decide
    simp [getImage, hw, hfound, hne, hne0, ImageVerdict.isOk]
  · have hnone : findKey w [(goToLower w, ({ startTime := now } : UserAccess))] = none := by
      simp [findKey, he]
    simp [getImage, hw, hnone, ImageVerdict.isOk]
    exact fun hh => he hh.symm

/-- Claim C10, witness: the mixed-case address "0xAb" pays and is then
refused access, since "0xAb" differs from its lowercasing. -/
theorem c10_case_mismatch_witness :
    ("0xAb" : String) ≠ "" ∧
    (((getImage (payImage [] "0xAb" 0).2 "0xAb" 0).1.isOk = true) ↔
      "0xAb" = goToLower "0xAb") :=
  ⟨by decide, c10_case_mismatch "0xAb" 0 (by decide)⟩
